import Mathlib

/-!
Verification of the descriptor-synthesis core of `gen-boot-artifacts.py`
(the `DtsBuilder` text emitter and `FitImage._build_its`).

Modelling conventions:
* The output sink (a Python file object) is modelled as the list of lines
  written so far; every `_write_line` call in the source writes exactly one
  newline-terminated line, modelled as appending one `String` (without the
  terminator) to that list.
* The nesting counter is an `Int`, like a Python integer; `" " * n` for a
  negative `n` is the empty string, which `Int.toNat` reproduces.
* `os.path.realpath` is an operating-system call; it is modelled as an
  explicit function parameter `realpath : String -> String`.
* Python exceptions escaping a computation are modelled with `Except`; the
  error value carries the builder state at raise time, because the text
  already written to the sink survives the exception.
-/

/-- Auxiliary: a string of `n` spaces, as produced by `" " * n` for `n >= 0`. -/
def spaces (n : Nat) : String :=
  String.mk (List.replicate n ' ')

/-- Translation of one character under `DTS_TRANS = str.maketrans({'"': '\\"'})`. -/
def dtsEscapeChar (c : Char) : List Char :=
  if c = '"' then ['\\', '"'] else [c]

/-- `value.translate(DTS_TRANS)` from the source: escape every double quote. -/
def dtsTranslate (l : List Char) : List Char :=
  (l.map dtsEscapeChar).flatten

/-- State of the `DtsBuilder` helper class: the lines written to the sink `f`
    so far, and the `_nesting` counter. -/
structure DtsBuilder where
  lines : List String
  nesting : Int
  deriving DecidableEq

/-- `DtsBuilder._write_line`: `self.f.write(" " * (4 * self._nesting) + line + "\n")`. -/
def DtsBuilder._write_line (b : DtsBuilder) (line : String) : DtsBuilder :=
  { b with lines := b.lines ++ [spaces (4 * b.nesting).toNat ++ line] }

/-- `DtsBuilder.header`. -/
def DtsBuilder.header (b : DtsBuilder) : DtsBuilder :=
  b._write_line "/dts-v1/;"

/-- `DtsBuilder.open_node`: write the name, a space and an opening brace,
    then increment `_nesting`. -/
def DtsBuilder.open_node (b : DtsBuilder) (name : String) : DtsBuilder :=
  let b2 := b._write_line (name ++ " \x7b")
  { b2 with nesting := b2.nesting + 1 }

/-- `DtsBuilder.close_node`: decrement `_nesting`, then write the closing
    brace and semicolon.  The source performs no check that `_nesting` is
    positive. -/
def DtsBuilder.close_node (b : DtsBuilder) : DtsBuilder :=
  let b2 : DtsBuilder := { b with nesting := b.nesting - 1 }
  b2._write_line "\x7d;"

/-- `DtsBuilder.node`, the `@contextlib.contextmanager` wrapper:
    `open_node(name); yield; close_node()`.  There is no `try`/`finally`
    around the `yield`, so when the body raises, the exception propagates and
    `close_node` is never executed; this is modelled by the `error` branch. -/
def DtsBuilder.node (b : DtsBuilder) (name : String)
    (body : DtsBuilder → Except DtsBuilder DtsBuilder) :
    Except DtsBuilder DtsBuilder :=
  match body (b.open_node name) with
  | Except.ok b2 => Except.ok b2.close_node
  | Except.error b2 => Except.error b2

/-- `DtsBuilder.node` restricted to bodies that cannot raise (the only way it
    is used inside `_build_its`). -/
def DtsBuilder.nodeP (b : DtsBuilder) (name : String)
    (body : DtsBuilder → DtsBuilder) : DtsBuilder :=
  (body (b.open_node name)).close_node

/-- Python alternate-form hexadecimal formatting of a nonnegative integer:
    `0x` plus lowercase hexadecimal digits. -/
def hexLit (c : Nat) : String :=
  "0x" ++ String.mk (Nat.toDigits 16 c)

/-- `DtsBuilder.cells_prop`.  (The Python keyword argument `as_hex`
    defaults to `True`; the Lean model passes it explicitly.) -/
def DtsBuilder.cells_prop (b : DtsBuilder) (name : String) (cells : List Nat)
    (as_hex : Bool) : DtsBuilder :=
  let cell_values :=
    if as_hex then cells.map (fun c => hexLit c)
    else cells.map (fun c => toString c)
  b._write_line (name ++ " = <" ++ String.intercalate ", " cell_values ++ ">;")

/-- `DtsBuilder.string_prop`. -/
def DtsBuilder.string_prop (b : DtsBuilder) (name value : String) : DtsBuilder :=
  b._write_line (name ++ " = \"" ++ String.mk (dtsTranslate value.data) ++ "\";")

/-- `DtsBuilder.incbin_prop`. -/
def DtsBuilder.incbin_prop (b : DtsBuilder) (name path : String) : DtsBuilder :=
  b._write_line (name ++ " = /incbin/(\"" ++ String.mk (dtsTranslate path.data) ++ "\");")

/-- `os.path.basename` on POSIX: everything after the last `/`. -/
def basename (p : String) : String :=
  String.mk ((p.data.reverse.takeWhile (fun c => c ≠ '/')).reverse)

/-- The fixed architecture translation table `{"riscv64": "riscv"}.get(arch)`
    from `_build_its`. -/
def fit_arch_table (arch : String) : Option String :=
  if arch = "riscv64" then some "riscv" else none

/-- Result of a failed `_build_its` run: the `RuntimeError` message and the
    lines already written to the sink when the exception was raised. -/
structure ItsError where
  msg : String
  written : List String
  deriving DecidableEq

/-- `FitImage._build_its`: assemble the `.its` descriptor text.
    Inputs are the board name, the architecture, the prekernel and device-tree
    paths, and the `FitImage` object's `load_address` attribute;
    `realpath` models `os.path.realpath`.  Returns the full list of emitted
    lines, or the error state for an unsupported architecture.  Note that the
    source calls `its.header()` before checking the architecture table. -/
def FitImage.build_its (realpath : String → String)
    (board arch prekernel_path dtb_path : String) (load_address : Nat) :
    Except ItsError (List String) :=
  let prekernel_name := basename prekernel_path
  let dtb_name := basename dtb_path
  let its : DtsBuilder := { lines := [], nesting := 0 }
  let its := its.header
  match fit_arch_table arch with
  | none => Except.error { msg := "Unsupported arch for FitImage()", written := its.lines }
  | some fit_arch =>
    Except.ok (DtsBuilder.nodeP its "/" (fun b =>
      let b := b.string_prop "description" ("Managarm FIT image for " ++ board)
      let b := b.cells_prop "#address-cells" [1] false
      let b := DtsBuilder.nodeP b "images" (fun b =>
        let b := DtsBuilder.nodeP b prekernel_name (fun b =>
          let b := b.string_prop "description" "Managarm prekernel"
          let b := b.incbin_prop "data" (realpath prekernel_path)
          let b := b.string_prop "type" "kernel"
          let b := b.string_prop "arch" fit_arch
          let b := b.string_prop "os" "linux"
          let b := b.string_prop "compression" "none"
          let b := b.cells_prop "load" [load_address] true
          b.cells_prop "entry" [load_address] true)
        let b := DtsBuilder.nodeP b "initrd.cpio" (fun b =>
          let b := b.string_prop "description" "Managarm initrd"
          let b := b.incbin_prop "data" "initrd.cpio"
          let b := b.string_prop "type" "ramdisk"
          let b := b.string_prop "arch" fit_arch
          let b := b.string_prop "os" "linux"
          b.string_prop "compression" "none")
        DtsBuilder.nodeP b dtb_name (fun b =>
          let b := b.string_prop "description" "FDT"
          let b := b.incbin_prop "data" (realpath dtb_path)
          let b := b.string_prop "type" "flat_dt"
          let b := b.string_prop "arch" fit_arch
          b.string_prop "compression" "none"))
      DtsBuilder.nodeP b "configurations" (fun b =>
        let b := b.string_prop "default" board
        DtsBuilder.nodeP b board (fun b =>
          let b := b.string_prop "description" ("Managarm on " ++ board)
          let b := b.string_prop "kernel" prekernel_name
          let b := b.string_prop "ramdisk" "initrd.cpio"
          b.string_prop "fdt" dtb_name)))).lines

/-- The descriptor text of a successful `_build_its` run, line by line, with
    the quote-escaping translation still applied to the input-dependent
    string values (the raw normal form of the emission). -/
def itsLinesRaw (realpath : String → String) (board k d : String) (la : Nat) :
    List String :=
  ["/dts-v1/;",
   "/ \x7b",
   "    description = \"" ++ String.mk (dtsTranslate ("Managarm FIT image for " ++ board).data) ++ "\";",
   "    #address-cells = <1>;",
   "    images \x7b",
   "        " ++ basename k ++ " \x7b",
   "            description = \"Managarm prekernel\";",
   "            data = /incbin/(\"" ++ String.mk (dtsTranslate (realpath k).data) ++ "\");",
   "            type = \"kernel\";",
   "            arch = \"riscv\";",
   "            os = \"linux\";",
   "            compression = \"none\";",
   "            load = <" ++ hexLit la ++ ">;",
   "            entry = <" ++ hexLit la ++ ">;",
   "        \x7d;",
   "        initrd.cpio \x7b",
   "            description = \"Managarm initrd\";",
   "            data = /incbin/(\"initrd.cpio\");",
   "            type = \"ramdisk\";",
   "            arch = \"riscv\";",
   "            os = \"linux\";",
   "            compression = \"none\";",
   "        \x7d;",
   "        " ++ basename d ++ " \x7b",
   "            description = \"FDT\";",
   "            data = /incbin/(\"" ++ String.mk (dtsTranslate (realpath d).data) ++ "\");",
   "            type = \"flat_dt\";",
   "            arch = \"riscv\";",
   "            compression = \"none\";",
   "        \x7d;",
   "    \x7d;",
   "    configurations \x7b",
   "        default = \"" ++ String.mk (dtsTranslate board.data) ++ "\";",
   "        " ++ board ++ " \x7b",
   "            description = \"" ++ String.mk (dtsTranslate ("Managarm on " ++ board).data) ++ "\";",
   "            kernel = \"" ++ String.mk (dtsTranslate (basename k).data) ++ "\";",
   "            ramdisk = \"initrd.cpio\";",
   "            fdt = \"" ++ String.mk (dtsTranslate (basename d).data) ++ "\";",
   "        \x7d;",
   "    \x7d;",
   "\x7d;"]



/-- The same descriptor text with the translation removed from the
    input-dependent values; the clean specification-level template.  It agrees
    with `itsLinesRaw` whenever none of the inputs contains a double quote. -/
def itsLines (realpath : String → String) (board k d : String) (la : Nat) :
    List String :=
  ["/dts-v1/;",
   "/ \x7b",
   "    description = \"Managarm FIT image for " ++ board ++ "\";",
   "    #address-cells = <1>;",
   "    images \x7b",
   "        " ++ basename k ++ " \x7b",
   "            description = \"Managarm prekernel\";",
   "            data = /incbin/(\"" ++ realpath k ++ "\");",
   "            type = \"kernel\";",
   "            arch = \"riscv\";",
   "            os = \"linux\";",
   "            compression = \"none\";",
   "            load = <" ++ hexLit la ++ ">;",
   "            entry = <" ++ hexLit la ++ ">;",
   "        \x7d;",
   "        initrd.cpio \x7b",
   "            description = \"Managarm initrd\";",
   "            data = /incbin/(\"initrd.cpio\");",
   "            type = \"ramdisk\";",
   "            arch = \"riscv\";",
   "            os = \"linux\";",
   "            compression = \"none\";",
   "        \x7d;",
   "        " ++ basename d ++ " \x7b",
   "            description = \"FDT\";",
   "            data = /incbin/(\"" ++ realpath d ++ "\");",
   "            type = \"flat_dt\";",
   "            arch = \"riscv\";",
   "            compression = \"none\";",
   "        \x7d;",
   "    \x7d;",
   "    configurations \x7b",
   "        default = \"" ++ board ++ "\";",
   "        " ++ board ++ " \x7b",
   "            description = \"Managarm on " ++ board ++ "\";",
   "            kernel = \"" ++ basename k ++ "\";",
   "            ramdisk = \"initrd.cpio\";",
   "            fdt = \"" ++ basename d ++ "\";",
   "        \x7d;",
   "    \x7d;",
   "\x7d;"]

/-- `True` when the string contains no double-quote character, so that the
    DTS translation leaves it unchanged. -/
def noQuote (s : String) : Bool :=
  s.data.all (fun c => c != '"')

/-- Property name of an emitted property line: the first space-separated word
    after the indentation. -/
def propName (l : String) : String :=
  String.mk ((l.data.dropWhile (fun c => c == ' ')).takeWhile (fun c => c != ' '))

deriving instance DecidableEq for Except

/-- Reference parser reversing the escaping rule: replace every
    backslash-quote pair by a quote, scanning left to right. -/
def unescapeRef : List Char → List Char
  | [] => []
  | [c] => [c]
  | c1 :: c2 :: rest =>
    if c1 = '\\' ∧ c2 = '"' then '"' :: unescapeRef rest
    else c1 :: unescapeRef (c2 :: rest)

/-- Client programs of the builder that follow the scoped-acquisition calling
    convention: property emissions, sequencing, nested `node` blocks, and a
    body that raises an exception. -/
inductive Emit where
  | strProp (name value : String)
  | cellsProp (name : String) (cells : List Nat) (asHex : Bool)
  | incbinProp (name path : String)
  | raiseErr
  | seq (a b : Emit)
  | node (name : String) (body : Emit)

/-- `True` when the program contains no raising body. -/
def noRaiseB : Emit → Bool
  | Emit.raiseErr => false
  | Emit.seq a b => noRaiseB a && noRaiseB b
  | Emit.node _ body => noRaiseB body
  | _ => true

/-- Run a client program against the builder; `node` blocks go through the
    contextmanager wrapper `DtsBuilder.node`. -/
def runE : Emit → DtsBuilder → Except DtsBuilder DtsBuilder
  | Emit.strProp n v, b => Except.ok (b.string_prop n v)
  | Emit.cellsProp n cs hx, b => Except.ok (b.cells_prop n cs hx)
  | Emit.incbinProp n p, b => Except.ok (b.incbin_prop n p)
  | Emit.raiseErr, b => Except.error b
  | Emit.seq e1 e2, b =>
    match runE e1 b with
    | Except.ok b2 => runE e2 b2
    | Except.error b2 => Except.error b2
  | Emit.node name body, b => DtsBuilder.node b name (fun b2 => runE body b2)

/-- Reference rendering of a program at nesting depth `d`: every line is
    indented by exactly four spaces per nesting level and every node
    contributes one opening marker line and one closing marker line. -/
def renderAt (d : Nat) : Emit → List String
  | Emit.strProp n v =>
    [spaces (4 * d) ++ (n ++ " = \"" ++ String.mk (dtsTranslate v.data) ++ "\";")]
  | Emit.cellsProp n cs hx =>
    [spaces (4 * d) ++ (n ++ " = <" ++ String.intercalate ", "
      (if hx then cs.map (fun c => hexLit c) else cs.map (fun c => toString c)) ++ ">;")]
  | Emit.incbinProp n p =>
    [spaces (4 * d) ++ (n ++ " = /incbin/(\"" ++ String.mk (dtsTranslate p.data) ++ "\");")]
  | Emit.raiseErr => []
  | Emit.seq e1 e2 => renderAt d e1 ++ renderAt d e2
  | Emit.node name body =>
    (spaces (4 * d) ++ (name ++ " \x7b")) ::
      (renderAt (d + 1) body ++ [spaces (4 * d) ++ "\x7d;"])

/-- Last character of a line, when it exists. -/
def lastChar? (l : String) : Option Char :=
  l.data.reverse.head?

/-- Last two characters of a line in reverse order, when they exist. -/
def last2? (l : String) : Option (Char × Char) :=
  match l.data.reverse with
  | c2 :: c1 :: _ => some (c2, c1)
  | _ => none

/-- A line is an opening marker when it ends with an opening brace. -/
def isOpenLine (l : String) : Bool :=
  lastChar? l == some (Char.ofNat 123)

/-- A line is a closing marker when it ends with a closing brace and a
    semicolon. -/
def isCloseLine (l : String) : Bool :=
  last2? l == some (';', Char.ofNat 125)

/-- Number of opening marker lines. -/
def openCount (ls : List String) : Nat :=
  (ls.filter isOpenLine).length

/-- Number of closing marker lines. -/
def closeCount (ls : List String) : Nat :=
  (ls.filter isCloseLine).length

/-- Sample client program for the scoped-acquisition wrapper. -/
def emitSample : Emit :=
  Emit.node "images" (Emit.seq (Emit.strProp "type" "kernel")
    (Emit.node "inner" (Emit.cellsProp "load" [1] true)))


/-! Theorems. -/

/-- On non-raising bodies the two formulations of the wrapper agree. -/
theorem nodeP_eq_node (b : DtsBuilder) (name : String)
    (body : DtsBuilder → DtsBuilder) :
    Except.ok (b.nodeP name body) =
      DtsBuilder.node b name (fun b2 => Except.ok (body b2)) := rfl

theorem eq_header (b : DtsBuilder) :
    b.header = { lines := b.lines ++ [spaces (4 * b.nesting).toNat ++ "/dts-v1/;"],
                 nesting := b.nesting } := rfl

theorem eq_open_node (b : DtsBuilder) (n : String) :
    b.open_node n =
      { lines := b.lines ++ [spaces (4 * b.nesting).toNat ++ (n ++ " \x7b")],
        nesting := b.nesting + 1 } := rfl

theorem eq_close_node (b : DtsBuilder) :
    b.close_node =
      { lines := b.lines ++ [spaces (4 * (b.nesting - 1)).toNat ++ "\x7d;"],
        nesting := b.nesting - 1 } := rfl

theorem eq_string_prop (b : DtsBuilder) (n v : String) :
    b.string_prop n v =
      { lines := b.lines ++
          [spaces (4 * b.nesting).toNat ++
            (n ++ " = \"" ++ String.mk (dtsTranslate v.data) ++ "\";")],
        nesting := b.nesting } := rfl

theorem eq_incbin_prop (b : DtsBuilder) (n p : String) :
    b.incbin_prop n p =
      { lines := b.lines ++
          [spaces (4 * b.nesting).toNat ++
            (n ++ " = /incbin/(\"" ++ String.mk (dtsTranslate p.data) ++ "\");")],
        nesting := b.nesting } := rfl

theorem eq_cells_prop_one (b : DtsBuilder) (n : String) (c : Nat) :
    b.cells_prop n [c] true =
      { lines := b.lines ++
          [spaces (4 * b.nesting).toNat ++ (n ++ " = <" ++ hexLit c ++ ">;")],
        nesting := b.nesting } := rfl

theorem eq_cells_prop_dec_one (b : DtsBuilder) (n : String) (c : Nat) :
    b.cells_prop n [c] false =
      { lines := b.lines ++
          [spaces (4 * b.nesting).toNat ++ (n ++ " = <" ++ toString c ++ ">;")],
        nesting := b.nesting } := rfl

/-- A successful `_build_its` run emits exactly the raw template. -/
theorem build_its_eq_raw (realpath : String → String) (board k d : String) (la : Nat) :
    FitImage.build_its realpath board "riscv64" k d la =
      Except.ok (itsLinesRaw realpath board k d la) := by
  simp only [FitImage.build_its, fit_arch_table, DtsBuilder.nodeP, eq_header, eq_open_node,
    eq_close_node, eq_string_prop, eq_incbin_prop, eq_cells_prop_one, eq_cells_prop_dec_one,
    itsLinesRaw]
  norm_num
  and_intros <;> rfl

theorem strExt {a b : String} (h : a.data = b.data) : a = b := by
  cases a
  cases b
  exact congrArg String.mk h

theorem noQuote_all {s : String} (h : noQuote s = true) : ∀ c ∈ s.data, c ≠ '"' := by
  intro c hc
  have h2 := List.all_eq_true.mp h c hc
  simpa using h2

/-- The translation is the identity on quote-free character lists. -/
theorem dtsTranslate_noquote : ∀ (l : List Char), (∀ c ∈ l, c ≠ '"') → dtsTranslate l = l := by
  intro l h
  induction l with
  | nil => rfl
  | cons c t ih =>
    have hc : c ≠ '"' := h c (List.mem_cons_self c t)
    have ht := ih (fun x hx => h x (List.mem_cons_of_mem c hx))
    simp only [dtsTranslate, List.map_cons, List.flatten_cons] at ht ⊢
    rw [ht, dtsEscapeChar, if_neg hc]
    rfl

theorem mk_dtsTranslate_eq (s : String) (h : noQuote s = true) :
    String.mk (dtsTranslate s.data) = s := by
  rw [dtsTranslate_noquote s.data (noQuote_all h)]

theorem noQuote_append (a b : String) : noQuote (a ++ b) = (noQuote a && noQuote b) := by
  simp [noQuote]

theorem noQuote_basename {k : String} (h : noQuote k = true) : noQuote (basename k) = true := by
  simp only [noQuote, basename, List.all_eq_true] at h ⊢
  intro c hc
  apply h
  have h2 := List.mem_reverse.mp hc
  have h3 := (List.takeWhile_sublist (fun c => c ≠ '/')).subset h2
  exact List.mem_reverse.mp h3

/-- With quote-free inputs the raw template coincides with the clean one. -/
theorem itsLinesRaw_eq (realpath : String → String) (board k d : String) (la : Nat)
    (hb : noQuote board = true) (hk : noQuote k = true) (hd : noQuote d = true)
    (hrk : noQuote (realpath k) = true) (hrd : noQuote (realpath d) = true) :
    itsLinesRaw realpath board k d la = itsLines realpath board k d la := by
  have e1 : String.mk (dtsTranslate ("Managarm FIT image for " ++ board).data) =
      "Managarm FIT image for " ++ board := by
    apply mk_dtsTranslate_eq
    rw [noQuote_append, hb]
    rfl
  have e2 : String.mk (dtsTranslate (realpath k).data) = realpath k :=
    mk_dtsTranslate_eq _ hrk
  have e3 : String.mk (dtsTranslate (realpath d).data) = realpath d :=
    mk_dtsTranslate_eq _ hrd
  have e4 : String.mk (dtsTranslate board.data) = board :=
    mk_dtsTranslate_eq _ hb
  have e5 : String.mk (dtsTranslate ("Managarm on " ++ board).data) =
      "Managarm on " ++ board := by
    apply mk_dtsTranslate_eq
    rw [noQuote_append, hb]
    rfl
  have e6 : String.mk (dtsTranslate (basename k).data) = basename k :=
    mk_dtsTranslate_eq _ (noQuote_basename hk)
  have e7 : String.mk (dtsTranslate (basename d).data) = basename d :=
    mk_dtsTranslate_eq _ (noQuote_basename hd)
  simp only [itsLinesRaw, itsLines]
  rw [e1, e2, e3, e4, e5, e6, e7]
  simp only [List.cons.injEq, and_true]
  and_intros <;> trivial

/-- With quote-free inputs `_build_its` emits exactly the clean template. -/
theorem build_its_spec (realpath : String → String) (board k d : String) (la : Nat)
    (hb : noQuote board = true) (hk : noQuote k = true) (hd : noQuote d = true)
    (hrk : noQuote (realpath k) = true) (hrd : noQuote (realpath d) = true) :
    FitImage.build_its realpath board "riscv64" k d la =
      Except.ok (itsLines realpath board k d la) := by
  rw [build_its_eq_raw, itsLinesRaw_eq realpath board k d la hb hk hd hrk hrd]

/-- C1 (amended): for fixed board name, architecture, kernel path, device-tree
    path AND load address (and a fixed path-canonicalization function), the
    descriptor assembly `_build_its` produces byte-identical text on any two
    invocations: the output equals one explicit template, a pure function of
    those inputs, with the ordering of nodes and properties fixed. -/
theorem C1_determinism (realpath : String → String) (board k d : String) (la : Nat)
    (hb : noQuote board = true) (hk : noQuote k = true) (hd : noQuote d = true)
    (hrk : noQuote (realpath k) = true) (hrd : noQuote (realpath d) = true) :
    FitImage.build_its realpath board "riscv64" k d la =
      Except.ok (itsLines realpath board k d la) :=
  build_its_spec realpath board k d la hb hk hd hrk hrd

/-- Witness for C1 at concrete bpi-f3 inputs. -/
theorem C1_determinism_witness :
    FitImage.build_its id "bpi-f3" "riscv64" "/sr/usr/managarm/bin/eir-virt.bin"
        "/sr/usr/managarm/devicetree/k1-x_deb1.dtb" 285212672 =
      Except.ok (itsLines id "bpi-f3" "/sr/usr/managarm/bin/eir-virt.bin"
        "/sr/usr/managarm/devicetree/k1-x_deb1.dtb" 285212672) :=
  C1_determinism id "bpi-f3" "/sr/usr/managarm/bin/eir-virt.bin"
    "/sr/usr/managarm/devicetree/k1-x_deb1.dtb" 285212672
    (by decide) (by decide) (by decide) (by decide) (by decide)

/-- Counterexample to C1 as stated: the input tuple of the claim omits the
    load address, but two invocations with identical (board, architecture,
    kernel path, device-tree path) and different load addresses produce
    different descriptor text. -/
theorem C1_counterexample :
    FitImage.build_its id "bpi-f3" "riscv64" "/sr/usr/managarm/bin/eir-virt.bin"
        "/sr/usr/managarm/devicetree/k1-x_deb1.dtb" 285212672 ≠
      FitImage.build_its id "bpi-f3" "riscv64" "/sr/usr/managarm/bin/eir-virt.bin"
        "/sr/usr/managarm/devicetree/k1-x_deb1.dtb" 0 := by decide

/-- C2 (amended): requesting descriptor assembly for an architecture absent
    from the translation table fails with the configuration error
    `RuntimeError("Unsupported arch for FitImage()")`, but only after the
    fixed format header line has already been written to the descriptor sink:
    at the abort the sink holds exactly that one header line, and no
    board-specific text is ever produced. -/
theorem C2_unsupported_arch (realpath : String → String) (board arch k d : String)
    (la : Nat) (h : fit_arch_table arch = none) :
    FitImage.build_its realpath board arch k d la =
      Except.error { msg := "Unsupported arch for FitImage()",
                     written := ["/dts-v1/;"] } := by
  simp only [FitImage.build_its, h]
  rfl

/-- Witness for C2 at the unsupported architecture `aarch64`. -/
theorem C2_unsupported_arch_witness :
    fit_arch_table "aarch64" = none ∧
    FitImage.build_its id "raspi4" "aarch64" "/k.bin" "/d.dtb" 0 =
      Except.error { msg := "Unsupported arch for FitImage()",
                     written := ["/dts-v1/;"] } :=
  ⟨rfl, C2_unsupported_arch id "raspi4" "aarch64" "/k.bin" "/d.dtb" 0 rfl⟩

/-- Counterexample to C2 as stated: on the unsupported architecture `aarch64`
    the assembly aborts, but the descriptor sink is not empty at the abort —
    the header line was written before the architecture check. -/
theorem C2_counterexample :
    FitImage.build_its id "raspi4" "aarch64" "/k.bin" "/d.dtb" 0 =
      Except.error { msg := "Unsupported arch for FitImage()",
                     written := ["/dts-v1/;"] } ∧
    (["/dts-v1/;"] : List String) ≠ [] := by decide

/-- C6: `cells_prop "x" [0, 255, 4096]` emits exactly
    `x = <0x0, 0xff, 0x1000>;` in hexadecimal mode and exactly
    `x = <0, 255, 4096>;` in decimal mode, preserving the order of values. -/
theorem C6_cells_format :
    (DtsBuilder.cells_prop { lines := [], nesting := 0 } "x" [0, 255, 4096] true).lines =
      ["x = <0x0, 0xff, 0x1000>;"] ∧
    (DtsBuilder.cells_prop { lines := [], nesting := 0 } "x" [0, 255, 4096] false).lines =
      ["x = <0, 255, 4096>;"] := by decide

/-- C7: in the images section of every assembled descriptor, the kernel entry
    (line 7) and the device-tree entry (line 25) carry binary references whose
    paths are the canonicalized absolute forms (`os.path.realpath`, modelled
    by the `realpath` parameter) of the input paths, while the ramdisk
    entry's binary reference (line 17) is the bare relative filename
    `initrd.cpio`. -/
theorem C7_binary_references (realpath : String → String) (board k d : String) (la : Nat)
    (hb : noQuote board = true) (hk : noQuote k = true) (hd : noQuote d = true)
    (hrk : noQuote (realpath k) = true) (hrd : noQuote (realpath d) = true) :
    FitImage.build_its realpath board "riscv64" k d la =
      Except.ok (itsLines realpath board k d la) ∧
    (itsLines realpath board k d la)[7]? =
      some ("            data = /incbin/(\"" ++ realpath k ++ "\");") ∧
    (itsLines realpath board k d la)[17]? =
      some "            data = /incbin/(\"initrd.cpio\");" ∧
    (itsLines realpath board k d la)[25]? =
      some ("            data = /incbin/(\"" ++ realpath d ++ "\");") :=
  ⟨build_its_spec realpath board k d la hb hk hd hrk hrd, rfl, rfl, rfl⟩

/-- Witness for C7 at concrete bpi-f3 inputs. -/
theorem C7_binary_references_witness :
    FitImage.build_its id "bpi-f3" "riscv64" "/sr/k/eir-virt.bin" "/sr/d/k1-x_deb1.dtb" 1 =
      Except.ok (itsLines id "bpi-f3" "/sr/k/eir-virt.bin" "/sr/d/k1-x_deb1.dtb" 1) ∧
    (itsLines id "bpi-f3" "/sr/k/eir-virt.bin" "/sr/d/k1-x_deb1.dtb" 1)[7]? =
      some ("            data = /incbin/(\"" ++ id "/sr/k/eir-virt.bin" ++ "\");") ∧
    (itsLines id "bpi-f3" "/sr/k/eir-virt.bin" "/sr/d/k1-x_deb1.dtb" 1)[17]? =
      some "            data = /incbin/(\"initrd.cpio\");" ∧
    (itsLines id "bpi-f3" "/sr/k/eir-virt.bin" "/sr/d/k1-x_deb1.dtb" 1)[25]? =
      some ("            data = /incbin/(\"" ++ id "/sr/d/k1-x_deb1.dtb" ++ "\");") :=
  C7_binary_references id "bpi-f3" "/sr/k/eir-virt.bin" "/sr/d/k1-x_deb1.dtb" 1
    (by decide) (by decide) (by decide) (by decide) (by decide)

/-- C8: in every assembled descriptor the configurations node carries a
    `default` property equal to the board name (line 32) and one child node
    named by the board (line 33) whose `kernel`, `ramdisk` and `fdt` string
    properties (lines 35-37) name exactly the image entries declared earlier
    in the same descriptor at lines 5, 15 and 23: the base filenames of the
    kernel and device-tree inputs and `initrd.cpio`. -/
theorem C8_cross_references (realpath : String → String) (board k d : String) (la : Nat)
    (hb : noQuote board = true) (hk : noQuote k = true) (hd : noQuote d = true)
    (hrk : noQuote (realpath k) = true) (hrd : noQuote (realpath d) = true) :
    FitImage.build_its realpath board "riscv64" k d la =
      Except.ok (itsLines realpath board k d la) ∧
    (itsLines realpath board k d la)[32]? =
      some ("        default = \"" ++ board ++ "\";") ∧
    (itsLines realpath board k d la)[33]? =
      some ("        " ++ board ++ " \x7b") ∧
    (itsLines realpath board k d la)[35]? =
      some ("            kernel = \"" ++ basename k ++ "\";") ∧
    (itsLines realpath board k d la)[36]? =
      some "            ramdisk = \"initrd.cpio\";" ∧
    (itsLines realpath board k d la)[37]? =
      some ("            fdt = \"" ++ basename d ++ "\";") ∧
    (itsLines realpath board k d la)[5]? =
      some ("        " ++ basename k ++ " \x7b") ∧
    (itsLines realpath board k d la)[15]? =
      some "        initrd.cpio \x7b" ∧
    (itsLines realpath board k d la)[23]? =
      some ("        " ++ basename d ++ " \x7b") ∧
    (5 < 35 ∧ 15 < 36 ∧ 23 < 37) :=
  ⟨build_its_spec realpath board k d la hb hk hd hrk hrd,
   rfl, rfl, rfl, rfl, rfl, rfl, rfl, rfl, by decide⟩

/-- Witness for C8 at concrete bpi-f3 inputs. -/
theorem C8_cross_references_witness :
    FitImage.build_its id "bpi-f3" "riscv64" "/sr/k/eir-virt.bin" "/sr/d/k1-x_deb1.dtb" 2 =
      Except.ok (itsLines id "bpi-f3" "/sr/k/eir-virt.bin" "/sr/d/k1-x_deb1.dtb" 2) ∧
    (itsLines id "bpi-f3" "/sr/k/eir-virt.bin" "/sr/d/k1-x_deb1.dtb" 2)[32]? =
      some ("        default = \"" ++ "bpi-f3" ++ "\";") ∧
    (itsLines id "bpi-f3" "/sr/k/eir-virt.bin" "/sr/d/k1-x_deb1.dtb" 2)[33]? =
      some ("        " ++ "bpi-f3" ++ " \x7b") ∧
    (itsLines id "bpi-f3" "/sr/k/eir-virt.bin" "/sr/d/k1-x_deb1.dtb" 2)[35]? =
      some ("            kernel = \"" ++ basename "/sr/k/eir-virt.bin" ++ "\";") ∧
    (itsLines id "bpi-f3" "/sr/k/eir-virt.bin" "/sr/d/k1-x_deb1.dtb" 2)[36]? =
      some "            ramdisk = \"initrd.cpio\";" ∧
    (itsLines id "bpi-f3" "/sr/k/eir-virt.bin" "/sr/d/k1-x_deb1.dtb" 2)[37]? =
      some ("            fdt = \"" ++ basename "/sr/d/k1-x_deb1.dtb" ++ "\";") ∧
    (itsLines id "bpi-f3" "/sr/k/eir-virt.bin" "/sr/d/k1-x_deb1.dtb" 2)[5]? =
      some ("        " ++ basename "/sr/k/eir-virt.bin" ++ " \x7b") ∧
    (itsLines id "bpi-f3" "/sr/k/eir-virt.bin" "/sr/d/k1-x_deb1.dtb" 2)[15]? =
      some "        initrd.cpio \x7b" ∧
    (itsLines id "bpi-f3" "/sr/k/eir-virt.bin" "/sr/d/k1-x_deb1.dtb" 2)[23]? =
      some ("        " ++ basename "/sr/d/k1-x_deb1.dtb" ++ " \x7b") ∧
    (5 < 35 ∧ 15 < 36 ∧ 23 < 37) :=
  C8_cross_references id "bpi-f3" "/sr/k/eir-virt.bin" "/sr/d/k1-x_deb1.dtb" 2
    (by decide) (by decide) (by decide) (by decide) (by decide)

/-- C9: in every assembled descriptor only the kernel-role image entry
    carries `load` and `entry` address cells (its property names are exactly
    description, data, type, arch, os, compression, load, entry), and both
    cells hold the same numeric value, the configured load address.  The
    ramdisk entry carries exactly description, data, type, arch, os,
    compression (no load or entry) and the device-tree entry carries exactly
    description, data, type, arch, compression (no load, entry, or os tag). -/
theorem C9_load_entry_only_kernel (realpath : String → String) (board k d : String)
    (la : Nat)
    (hb : noQuote board = true) (hk : noQuote k = true) (hd : noQuote d = true)
    (hrk : noQuote (realpath k) = true) (hrd : noQuote (realpath d) = true) :
    FitImage.build_its realpath board "riscv64" k d la =
      Except.ok (itsLines realpath board k d la) ∧
    (((itsLines realpath board k d la).drop 6).take 8).map propName =
      ["description", "data", "type", "arch", "os", "compression", "load", "entry"] ∧
    (itsLines realpath board k d la)[12]? =
      some ("            load = <" ++ hexLit la ++ ">;") ∧
    (itsLines realpath board k d la)[13]? =
      some ("            entry = <" ++ hexLit la ++ ">;") ∧
    (((itsLines realpath board k d la).drop 16).take 6).map propName =
      ["description", "data", "type", "arch", "os", "compression"] ∧
    (((itsLines realpath board k d la).drop 24).take 5).map propName =
      ["description", "data", "type", "arch", "compression"] :=
  ⟨build_its_spec realpath board k d la hb hk hd hrk hrd, rfl, rfl, rfl, rfl, rfl⟩

/-- Witness for C9 at concrete bpi-f3 inputs. -/
theorem C9_load_entry_only_kernel_witness :
    FitImage.build_its id "bpi-f3" "riscv64" "/sr/k/eir-virt.bin" "/sr/d/k1-x_deb1.dtb" 285212672 =
      Except.ok (itsLines id "bpi-f3" "/sr/k/eir-virt.bin" "/sr/d/k1-x_deb1.dtb" 285212672) ∧
    (((itsLines id "bpi-f3" "/sr/k/eir-virt.bin" "/sr/d/k1-x_deb1.dtb" 285212672).drop 6).take 8).map propName =
      ["description", "data", "type", "arch", "os", "compression", "load", "entry"] ∧
    (itsLines id "bpi-f3" "/sr/k/eir-virt.bin" "/sr/d/k1-x_deb1.dtb" 285212672)[12]? =
      some ("            load = <" ++ hexLit 285212672 ++ ">;") ∧
    (itsLines id "bpi-f3" "/sr/k/eir-virt.bin" "/sr/d/k1-x_deb1.dtb" 285212672)[13]? =
      some ("            entry = <" ++ hexLit 285212672 ++ ">;") ∧
    (((itsLines id "bpi-f3" "/sr/k/eir-virt.bin" "/sr/d/k1-x_deb1.dtb" 285212672).drop 16).take 6).map propName =
      ["description", "data", "type", "arch", "os", "compression"] ∧
    (((itsLines id "bpi-f3" "/sr/k/eir-virt.bin" "/sr/d/k1-x_deb1.dtb" 285212672).drop 24).take 5).map propName =
      ["description", "data", "type", "arch", "compression"] :=
  C9_load_entry_only_kernel id "bpi-f3" "/sr/k/eir-virt.bin" "/sr/d/k1-x_deb1.dtb" 285212672
    (by decide) (by decide) (by decide) (by decide) (by decide)

/-- C10: `cells_prop` is total on the empty cell list: for every property
    name and either formatting flag, it emits exactly `name = <>;` at the
    current indentation. -/
theorem C10_empty_cells (b : DtsBuilder) (name : String) (as_hex : Bool) :
    (b.cells_prop name [] as_hex).lines =
      b.lines ++ [spaces (4 * b.nesting).toNat ++ (name ++ " = <>;")] := by
  have main : name ++ " = <" ++ String.intercalate ", " ([] : List String) ++ ">;" =
      name ++ " = <>;" := by
    apply strExt
    show (name.data ++ " = <".data ++ ([] : List Char)) ++ ">;".data =
      name.data ++ " = <>;".data
    simp only [List.append_nil, List.append_assoc]
    rfl
  cases as_hex <;>
    simp only [DtsBuilder.cells_prop, DtsBuilder._write_line, List.map_nil,
      Bool.false_eq_true, if_false, if_true, main]

theorem sdata_append (a b : String) : (a ++ b).data = a.data ++ b.data := rfl

theorem sappend_assoc (a b c : String) : a ++ b ++ c = a ++ (b ++ c) := by
  apply strExt
  simp [sdata_append, List.append_assoc]

/-- Marker classification of a line is decided by its last two characters. -/
theorem marker_flags (x t : String) (c2 c1 : Char) (rest : List Char)
    (h : t.data.reverse = c2 :: c1 :: rest) :
    isOpenLine (x ++ t) = (c2 == Char.ofNat 123) ∧
    isCloseLine (x ++ t) = ((c2 == ';') && (c1 == Char.ofNat 125)) := by
  have hrev : (x ++ t).data.reverse = c2 :: c1 :: (rest ++ x.data.reverse) := by
    rw [sdata_append, List.reverse_append, h]
    simp
  have h1 : lastChar? (x ++ t) = some c2 := by
    unfold lastChar?
    rw [hrev]
    rfl
  have h2 : last2? (x ++ t) = some (c2, c1) := by
    unfold last2?
    rw [hrev]
  constructor
  · rw [show isOpenLine (x ++ t) = (lastChar? (x ++ t) == some (Char.ofNat 123)) from rfl, h1]
    cases hc : c2 == Char.ofNat 123 <;> simp_all [beq_iff_eq]
  · rw [show isCloseLine (x ++ t) = (last2? (x ++ t) == some (';', Char.ofNat 125)) from rfl, h2]
    rfl

theorem marker_str_line (a n T : String) :
    isOpenLine (a ++ (n ++ " = \"" ++ T ++ "\";")) = false ∧
    isCloseLine (a ++ (n ++ " = \"" ++ T ++ "\";")) = false := by
  have h : a ++ (n ++ " = \"" ++ T ++ "\";") = (a ++ (n ++ " = \"" ++ T)) ++ "\";" := by
    apply strExt
    simp [sdata_append, List.append_assoc]
  rw [h]
  have h2 := marker_flags (a ++ (n ++ " = \"" ++ T)) "\";" ';' '"' [] rfl
  simpa using h2

theorem marker_cells_line (a n T : String) :
    isOpenLine (a ++ (n ++ " = <" ++ T ++ ">;")) = false ∧
    isCloseLine (a ++ (n ++ " = <" ++ T ++ ">;")) = false := by
  have h : a ++ (n ++ " = <" ++ T ++ ">;") = (a ++ (n ++ " = <" ++ T)) ++ ">;" := by
    apply strExt
    simp [sdata_append, List.append_assoc]
  rw [h]
  have h2 := marker_flags (a ++ (n ++ " = <" ++ T)) ">;" ';' '>' [] rfl
  simpa using h2

theorem marker_incbin_line (a n T : String) :
    isOpenLine (a ++ (n ++ " = /incbin/(\"" ++ T ++ "\");")) = false ∧
    isCloseLine (a ++ (n ++ " = /incbin/(\"" ++ T ++ "\");")) = false := by
  have h : a ++ (n ++ " = /incbin/(\"" ++ T ++ "\");") =
      (a ++ (n ++ " = /incbin/(\"" ++ T)) ++ "\");" := by
    apply strExt
    simp [sdata_append, List.append_assoc]
  rw [h]
  have h2 := marker_flags (a ++ (n ++ " = /incbin/(\"" ++ T)) "\");" ';' ')' ['"'] rfl
  simpa using h2

theorem marker_open_line (a n : String) :
    isOpenLine (a ++ (n ++ " \x7b")) = true ∧
    isCloseLine (a ++ (n ++ " \x7b")) = false := by
  have h : a ++ (n ++ " \x7b") = (a ++ n) ++ " \x7b" := by
    apply strExt
    simp [sdata_append, List.append_assoc]
  rw [h]
  have h2 := marker_flags (a ++ n) " \x7b" (Char.ofNat 123) ' ' [] rfl
  simpa using h2

theorem marker_close_line (a : String) :
    isOpenLine (a ++ "\x7d;") = false ∧
    isCloseLine (a ++ "\x7d;") = true := by
  have h2 := marker_flags a "\x7d;" ';' (Char.ofNat 125) [] rfl
  simpa using h2

/-- The reference rendering is balanced: opening and closing marker lines
    occur in equal numbers. -/
theorem renderAt_balanced (e : Emit) : ∀ d : Nat,
    openCount (renderAt d e) = closeCount (renderAt d e) := by
  induction e with
  | strProp n v =>
    intro d
    have hm := marker_str_line (spaces (4 * d)) n (String.mk (dtsTranslate v.data))
    simp [renderAt, openCount, closeCount, List.filter_cons, hm.1, hm.2]
  | cellsProp n cs hx =>
    intro d
    have hm := marker_cells_line (spaces (4 * d)) n (String.intercalate ", "
      (if hx then cs.map (fun c => hexLit c) else cs.map (fun c => toString c)))
    simp [renderAt, openCount, closeCount, List.filter_cons, hm.1, hm.2]
  | incbinProp n p =>
    intro d
    have hm := marker_incbin_line (spaces (4 * d)) n (String.mk (dtsTranslate p.data))
    simp [renderAt, openCount, closeCount, List.filter_cons, hm.1, hm.2]
  | raiseErr =>
    intro d
    rfl
  | seq e1 e2 ih1 ih2 =>
    intro d
    have h1 := ih1 d
    have h2 := ih2 d
    simp only [renderAt, openCount, closeCount, List.filter_append,
      List.length_append] at h1 h2 ⊢
    omega
  | node n body ih =>
    intro d
    have hb := ih (d + 1)
    have ho := marker_open_line (spaces (4 * d)) n
    have hc := marker_close_line (spaces (4 * d))
    simp only [renderAt, openCount, closeCount, List.filter_cons, List.filter_append,
      List.filter_nil, List.length_append, List.length_cons, List.length_nil,
      ho.1, ho.2, hc.1, hc.2, if_true, if_false, Bool.false_eq_true] at hb ⊢
    omega

theorem toNat_mul4 (d : Nat) : ((4 : Int) * (d : Int)).toNat = 4 * d := by
  omega

/-- Running a non-raising client program through the builder succeeds,
    restores the nesting counter, and appends exactly the reference
    rendering at the current depth. -/
theorem runE_renderAt (e : Emit) : ∀ (b : DtsBuilder) (d : Nat),
    noRaiseB e = true → b.nesting = (d : Int) →
    runE e b = Except.ok { lines := b.lines ++ renderAt d e, nesting := b.nesting } := by
  induction e with
  | strProp n v =>
    intro b d hn hd
    simp [runE, eq_string_prop, renderAt, hd, toNat_mul4]
  | cellsProp n cs hx =>
    intro b d hn hd
    simp only [runE, DtsBuilder.cells_prop, DtsBuilder._write_line, renderAt, hd, toNat_mul4]
  | incbinProp n p =>
    intro b d hn hd
    simp [runE, eq_incbin_prop, renderAt, hd, toNat_mul4]
  | raiseErr =>
    intro b d hn hd
    simp [noRaiseB] at hn
  | seq e1 e2 ih1 ih2 =>
    intro b d hn hd
    simp only [noRaiseB, Bool.and_eq_true] at hn
    have h1 := ih1 b d hn.1 hd
    have h2 := ih2 { lines := b.lines ++ renderAt d e1, nesting := b.nesting } d hn.2 hd
    simp only [runE, h1, h2, renderAt]
    rw [List.append_assoc]
  | node n body ih =>
    intro b d hn hd
    simp only [noRaiseB] at hn
    have hb2 : (b.open_node n).nesting = ((d + 1 : Nat) : Int) := by
      simp [eq_open_node, hd]
    have hbody := ih (b.open_node n) (d + 1) hn hb2
    rw [eq_open_node, hd, toNat_mul4] at hbody
    simp only [runE, DtsBuilder.node, eq_open_node, hd, toNat_mul4]
    rw [hbody]
    simp only [eq_close_node, renderAt]
    have e5 : ((d : Int) + 1 - 1) = (d : Int) := by ring
    have e6 : ((4 : Int) * ((d : Int) + 1 - 1)).toNat = 4 * d := by omega
    simp only [e5, e6, toNat_mul4]
    simp [List.append_assoc]

theorem unescape_cons_of_ne (c h : Char) (rest : List Char) (hh : h ≠ '"') :
    unescapeRef (c :: h :: rest) = c :: unescapeRef (h :: rest) := by
  simp only [unescapeRef]
  rw [if_neg (fun hand => hh hand.2)]

theorem dtsTranslate_head_ne (c2 : Char) (t2 : List Char) :
    ∃ x rest2, dtsTranslate (c2 :: t2) = x :: rest2 ∧ x ≠ '"' := by
  by_cases h : c2 = '"'
  · subst h
    exact ⟨'\\', '"' :: dtsTranslate t2, rfl, by decide⟩
  · refine ⟨c2, dtsTranslate t2, ?_, h⟩
    simp [dtsTranslate, dtsEscapeChar, h]

/-- Unescaping (leftmost replacement of backslash-quote by quote) inverts the
    escaping translation on every character list. -/
theorem unescape_dtsTranslate : ∀ l : List Char, unescapeRef (dtsTranslate l) = l := by
  intro l
  induction l with
  | nil => rfl
  | cons c t ih =>
    by_cases hc : c = '"'
    · subst hc
      have hstep : dtsTranslate ('"' :: t) = '\\' :: '"' :: dtsTranslate t := rfl
      rw [hstep]
      have h2 : unescapeRef ('\\' :: '"' :: dtsTranslate t) =
          '"' :: unescapeRef (dtsTranslate t) := by
        simp [unescapeRef]
      rw [h2, ih]
    · have hstep : dtsTranslate (c :: t) = c :: dtsTranslate t := by
        simp [dtsTranslate, dtsEscapeChar, hc]
      rw [hstep]
      cases t with
      | nil => rfl
      | cons c2 t2 =>
        obtain ⟨x, rest2, hx, hxq⟩ := dtsTranslate_head_ne c2 t2
        rw [hx, unescape_cons_of_ne c x rest2 hxq, ← hx, ih]

/-- C3 (amended): for every client program of the scoped-acquisition wrapper
    whose node bodies complete without raising, each open is matched by
    exactly one close: the run succeeds, restores the nesting counter, and
    appends exactly the reference rendering, which indents every line by four
    spaces per nesting level and has equal numbers of opening and closing
    markers.  When a body raises, the wrapper (whose source has no
    `try`/`finally` around the `yield`) skips the close, so the guarantee
    does not extend to error paths. -/
theorem C3_scoped_balance (e : Emit) (b : DtsBuilder) (d : Nat)
    (hn : noRaiseB e = true) (hd : b.nesting = (d : Int)) :
    runE e b = Except.ok { lines := b.lines ++ renderAt d e, nesting := b.nesting } ∧
    openCount (renderAt d e) = closeCount (renderAt d e) :=
  ⟨runE_renderAt e b d hn hd, renderAt_balanced e d⟩

/-- Witness for C3 on a two-level nested sample program. -/
theorem C3_scoped_balance_witness :
    runE emitSample { lines := [], nesting := 0 } =
      Except.ok { lines := [] ++ renderAt 0 emitSample, nesting := 0 } ∧
    openCount (renderAt 0 emitSample) = closeCount (renderAt 0 emitSample) :=
  C3_scoped_balance emitSample { lines := [], nesting := 0 } 0 (by decide) rfl

/-- Counterexample to C3 as stated: when the body of a node raises, the
    wrapper never executes the close, so the emitted text has one opening
    marker and no closing marker and the nesting counter is left at one. -/
theorem C3_counterexample :
    runE (Emit.node "n" Emit.raiseErr) { lines := [], nesting := 0 } =
      Except.error { lines := ["n \x7b"], nesting := 1 } ∧
    openCount ["n \x7b"] = 1 ∧ closeCount ["n \x7b"] = 0 := by decide

/-- C4 (amended): calling `close_node` when the nesting counter is zero does
    not fail fast: the call succeeds, decrements the counter to minus one,
    and emits a closing marker line with empty indentation (a negative
    counter yields an empty indentation string). -/
theorem C4_close_node_underflow (b : DtsBuilder) (h : b.nesting = 0) :
    b.close_node = { lines := b.lines ++ ["\x7d;"], nesting := -1 } := by
  rw [eq_close_node, h]
  rfl

/-- Witness for C4 on the empty builder. -/
theorem C4_close_node_underflow_witness :
    DtsBuilder.close_node { lines := [], nesting := 0 } =
      { lines := [] ++ ["\x7d;"], nesting := -1 } :=
  C4_close_node_underflow { lines := [], nesting := 0 } rfl

/-- Counterexample to C4 as stated: closing more nodes than were opened does
    not raise any error; the builder continues and emits a further closing
    marker line. -/
theorem C4_counterexample :
    DtsBuilder.close_node { lines := [], nesting := 0 } =
      { lines := ["\x7d;"], nesting := -1 } := by decide

/-- C5: a string value containing a double quote, emitted with `string_prop`
    and re-parsed by the minimal reference parser that replaces
    backslash-quote with quote, yields the original string exactly; every
    quote in the value is escaped in the emitted literal. -/
theorem C5_escape_roundtrip (name v : String) (h : '"' ∈ v.data) :
    (DtsBuilder.string_prop { lines := [], nesting := 0 } name v).lines =
      [name ++ " = \"" ++ String.mk (dtsTranslate v.data) ++ "\";"] ∧
    unescapeRef (dtsTranslate v.data) = v.data :=
  ⟨rfl, unescape_dtsTranslate v.data⟩

/-- Witness for C5 on a value with embedded quotes. -/
theorem C5_escape_roundtrip_witness :
    '"' ∈ ("say \"hi\"" : String).data ∧
    ((DtsBuilder.string_prop { lines := [], nesting := 0 } "description" "say \"hi\"").lines =
      ["description" ++ " = \"" ++ String.mk (dtsTranslate ("say \"hi\"" : String).data) ++ "\";"] ∧
    unescapeRef (dtsTranslate ("say \"hi\"" : String).data) = ("say \"hi\"" : String).data) :=
  ⟨by decide, C5_escape_roundtrip "description" "say \"hi\"" (by decide)⟩
